import Mathlib

/-!
# Verification of the ai-chat-agent repository

Shallow embedding of the client-side auth layer (`src/lib/auth.ts`), the
upload validators (`src/lib/validators.ts` and
`src/app/chat/hooks/useUploadHandler.ts`), the canned-response generator
(`aiAgentWrapper`), the Zustand chat store, the `useChat` hook and the
voice-recorder hook, together with proofs of the specified properties.

Nondeterministic effects of the original TypeScript (`Date.now()`,
`Math.random()`-derived ids and timestamps, the stored-user list read from
localStorage, the outcome of the awaited AI call) are passed in as explicit
parameters; each function returns the updated state explicitly.
-/

namespace AiChatAgent

/-- `User` from `src/types/index.ts` (no password field). -/
structure User where
  id : String
  name : String
  email : String
  mobile : String
  createdAt : String
  deriving Repr, DecidableEq

/-- A stored user record: `User & { password: string }` as kept in the
`ai_chat_users` localStorage array. -/
structure StoredUser where
  id : String
  name : String
  email : String
  mobile : String
  password : String
  createdAt : String
  deriving Repr, DecidableEq

/-- `RegisterFormData` from `src/types/index.ts`. -/
structure RegisterFormData where
  name : String
  email : String
  mobile : String
  password : String
  confirmPassword : String
  deriving Repr, DecidableEq

/-- `LoginFormData` from `src/types/index.ts`. -/
structure LoginFormData where
  email : String
  password : String
  deriving Repr, DecidableEq

/-- The `{ password: _, ...userWithoutPassword }` destructuring used by
`registerUser` and `loginUser` in `auth.ts`. -/
def stripPassword (u : StoredUser) : User :=
  { id := u.id, name := u.name, email := u.email, mobile := u.mobile,
    createdAt := u.createdAt }

/-- The `{ success, user?, error? }` object returned by `registerUser` and
`loginUser` in `auth.ts`. -/
structure AuthResult where
  success : Bool
  user : Option User
  error : Option String
  deriving Repr, DecidableEq

/-- `registerUser` from `src/lib/auth.ts`.

`users` is the list read from localStorage; `uid` stands for the
`generateUserId()` result and `createdAt` for `new Date().toISOString()`.
Returns the auth result together with the stored-user list after the call
(unchanged when registration fails, since the code returns before
`saveUsers`). -/
def registerUser (data : RegisterFormData) (uid createdAt : String)
    (users : List StoredUser) : AuthResult × List StoredUser :=
  if users.any (fun u => u.email == data.email) then
    ({ success := false, user := none, error := some "Email already registered" }, users)
  else
    let newUser : StoredUser :=
      { id := uid, name := data.name, email := data.email, mobile := data.mobile,
        password := data.password, createdAt := createdAt }
    ({ success := true, user := some (stripPassword newUser), error := none },
      users ++ [newUser])

/-- `loginUser` from `src/lib/auth.ts`.

`users` is the stored list; `session` is the `ai_chat_current_user` record
before the call. Returns the auth result together with the session record
after the call. -/
def loginUser (data : LoginFormData) (users : List StoredUser)
    (session : Option User) : AuthResult × Option User :=
  match users.find? (fun u => u.email == data.email && u.password == data.password) with
  | none =>
      ({ success := false, user := none, error := some "Invalid email or password" }, session)
  | some u =>
      let userWithoutPassword := stripPassword u
      ({ success := true, user := some userWithoutPassword, error := none },
        some userWithoutPassword)

/-- The fields of a browser `File` object that `validateFile` and the
upload handler inspect (`name`, MIME `type`, `size` in bytes). -/
structure BrowserFile where
  name : String
  type : String
  size : Nat
  deriving Repr, DecidableEq

/-- `AllowedFileTypes` from `src/lib/validators.ts`. -/
def AllowedFileTypes_images : List String :=
  ["image/jpeg", "image/png", "image/gif", "image/webp"]

/-- `AllowedFileTypes.documents` from `src/lib/validators.ts`. -/
def AllowedFileTypes_documents : List String :=
  ["application/pdf", "text/plain", "application/msword"]

/-- `AllowedFileTypes.audio` from `src/lib/validators.ts`. -/
def AllowedFileTypes_audio : List String :=
  ["audio/mp3", "audio/wav", "audio/webm", "audio/ogg"]

/-- `MAX_FILE_SIZE = 10 * 1024 * 1024` from `src/lib/validators.ts`. -/
def MAX_FILE_SIZE : Nat := 10 * 1024 * 1024

/-- The `{ valid, error? }` object returned by `validateFile`. -/
structure ValidationResult where
  valid : Bool
  error : Option String
  deriving Repr, DecidableEq

/-- The `allAllowedTypes` array built at the top of `validateFile`. -/
def allAllowedTypes : List String :=
  AllowedFileTypes_images ++ AllowedFileTypes_documents ++ AllowedFileTypes_audio

/-- `validateFile` from `src/lib/validators.ts`: type allow-list check
first, then the size ceiling. -/
def validateFile (file : BrowserFile) : ValidationResult :=
  if ¬ (allAllowedTypes.contains file.type) then
    { valid := false, error := some "File type not supported" }
  else if file.size > MAX_FILE_SIZE then
    { valid := false, error := some "File size exceeds 10MB limit" }
  else
    { valid := true, error := none }

/-- `handleDrop` from `useUploadHandler.ts`, restricted to its data flow:
given the dropped file list, returns the file forwarded to `onFileSelect`
(if any) and the resulting `uploadError` (`prevError` when the list is
empty, since the handler then touches neither). -/
def handleDrop (files : List BrowserFile) (prevError : Option String) :
    Option BrowserFile × Option String :=
  match files with
  | [] => (none, prevError)
  | file :: _ =>
      let validation := validateFile file
      if validation.valid then (some file, none)
      else (none, some (validation.error.getD "Invalid file"))



/-! ### String helpers

JavaScript string primitives used by the chat layer, modelled over the
character list of the Lean string so that they reduce in the kernel. -/

/-- `String.prototype.toLowerCase()` (ASCII range, as exercised here). -/
def strToLower (s : String) : String := ⟨s.data.map Char.toLower⟩

/-- `String.prototype.startsWith(pre)`. -/
def strStartsWith (s pre : String) : Bool := pre.data.isPrefixOf s.data

/-- Whether `pat` occurs as a contiguous substring of `s` (the semantics of
an unanchored regex literal-word test such as `/code/.test(s)`). -/
def hasSubstringAux (pat : List Char) : List Char → Bool
  | [] => pat.isEmpty
  | c :: rest => pat.isPrefixOf (c :: rest) || hasSubstringAux pat rest

/-- String-level wrapper for `hasSubstringAux`. -/
def strIncludes (s pat : String) : Bool := hasSubstringAux pat.data s.data

/-- `String.prototype.trim()`: strip leading and trailing whitespace. -/
def strTrim (s : String) : String :=
  ⟨((s.data.dropWhile Char.isWhitespace).reverse.dropWhile Char.isWhitespace).reverse⟩

/-- Drop the first `n` characters of a string. -/
def strDrop (s : String) (n : Nat) : String := ⟨s.data.drop n⟩

/-! ### Chat data model (`src/types/index.ts`) -/

/-- The `role` field of a `Message`. -/
inductive Role where
  | user
  | assistant
  deriving Repr, DecidableEq

/-- `MessageContentType` from `src/types/index.ts`. -/
inductive MessageContentType where
  | text
  | image
  | file
  | voice
  | code
  deriving Repr, DecidableEq

/-- `Attachment` from `src/types/index.ts`. -/
structure Attachment where
  id : String
  name : String
  type : String
  size : Nat
  url : String
  preview : Option String
  deriving Repr, DecidableEq

/-- `Message` from `src/types/index.ts`. -/
structure Message where
  id : String
  role : Role
  content : String
  contentType : MessageContentType
  attachments : Option (List Attachment)
  timestamp : String
  isLoading : Option Bool
  deriving Repr, DecidableEq

/-- `AIAgentPayload` from `src/types/index.ts`. -/
structure AIAgentPayload where
  message : String
  attachments : Option (List Attachment)
  conversationId : Option String
  messageHistory : Option (List Message)
  deriving Repr, DecidableEq

/-- `AIAgentResponse` from `src/types/index.ts`. -/
structure AIAgentResponse where
  type : MessageContentType
  content : String
  attachments : Option (List Attachment)
  error : Option String
  deriving Repr, DecidableEq

/-! ### Canned-response generator (`aiAgentWrapper`) -/

/-- `mockResponses.greeting` from the AI agent wrapper. -/
def mockResponses_greeting : List String :=
  ["Hello! I'm your AI assistant. How can I help you today?",
   "Hi there! I'm ready to assist you with any questions or tasks.",
   "Greetings! What would you like to explore today?"]

/-- `mockResponses.image` from the AI agent wrapper. -/
def mockResponses_image : List String :=
  ["I can see you've shared an image. Let me analyze it for you...\n\nThis appears to be an interesting visual. I can help you with image descriptions, analysis, or any questions about what you've shared.",
   "Thanks for sharing this image! I've analyzed it and I'm ready to discuss what I see or answer any questions you might have about it."]

/-- `mockResponses.file` from the AI agent wrapper. -/
def mockResponses_file : List String :=
  ["I've received your file. Let me process it...\n\nI can help you analyze the contents, summarize key points, or answer questions about the document.",
   "File received! I'm ready to help you work with this document. What would you like to know about it?"]

/-- `mockResponses.code` from the AI agent wrapper. -/
def mockResponses_code : List String :=
  ["```javascript\n// Here's a sample code response\nfunction greet(name) \x7b\n  return `Hello, $\x7bname\x7d!`;\n\x7d\n\nconsole.log(greet('World'));\n```\n\nI can help you with code explanations, debugging, or writing new code!"]

/-- `mockResponses.default` from the AI agent wrapper. -/
def mockResponses_default : List String :=
  ["That's a great question! Let me think about this...\n\nBased on my analysis, I can provide you with a comprehensive response. Is there anything specific you'd like me to focus on?",
   "I understand what you're asking. Here's my perspective on this topic.\n\nWould you like me to elaborate on any particular aspect?",
   "Thanks for your message! I'm processing your request and here's what I found relevant to share with you."]

/-- The `mockResponses[category]` record lookup. -/
def mockResponsesLookup (category : String) : Option (List String) :=
  if category == "greeting" then some mockResponses_greeting
  else if category == "image" then some mockResponses_image
  else if category == "file" then some mockResponses_file
  else if category == "code" then some mockResponses_code
  else if category == "default" then some mockResponses_default
  else none

/-- The greeting regex
`/^(hi|hello|hey|greetings|good\s*(morning|afternoon|evening))/i` applied to
the already-lowercased message: an anchored alternation, with `\s*` read as
a greedy whitespace run (the following alternatives never start with
whitespace, so greediness is exact). -/
def isGreetingStart (m : String) : Bool :=
  strStartsWith m "hi" || strStartsWith m "hello" || strStartsWith m "hey"
  || strStartsWith m "greetings"
  || (strStartsWith m "good" &&
      (let rest : String := ⟨(m.data.drop 4).dropWhile Char.isWhitespace⟩
       strStartsWith rest "morning" || strStartsWith rest "afternoon"
       || strStartsWith rest "evening"))

/-- The code regex `/code|function|programming|javascript|python|react|api/i`
applied to the already-lowercased message: an unanchored substring test. -/
def isCodeQuery (m : String) : Bool :=
  strIncludes m "code" || strIncludes m "function" || strIncludes m "programming"
  || strIncludes m "javascript" || strIncludes m "python" || strIncludes m "react"
  || strIncludes m "api"

/-- `getResponseCategory` from the AI agent wrapper. -/
def getResponseCategory (payload : AIAgentPayload) : String :=
  let message := strToLower payload.message
  if isGreetingStart message then "greeting"
  else if isCodeQuery message then "code"
  else
    match payload.attachments with
    | some (firstAttachment :: _) =>
        if strStartsWith firstAttachment.type "image/" then "image" else "file"
    | _ => "default"

/-- `getRandomResponse` from the AI agent wrapper:
`responses[Math.floor(Math.random() * responses.length)]`, with the
random index `Math.floor(Math.random() * responses.length)` passed in
explicitly (it lies in `[0, responses.length)` for any `Math.random()`
value in `[0, 1)`). -/
def getRandomResponse (responses : List String) (randIndex : Nat) : String :=
  responses.getD randIndex ""

/-- `sendToAIAgent` from the AI agent wrapper (mock branch: delay, category
selection, random pool pick; the surrounding `try` can only reach its
`catch` if one of these throws, which none does). -/
def sendToAIAgent (payload : AIAgentPayload) (randIndex : Nat) : AIAgentResponse :=
  let category := getResponseCategory payload
  let responses := (mockResponsesLookup category).getD mockResponses_default
  let content := getRandomResponse responses randIndex
  { type := .text, content := content, attachments := none, error := none }

/-! ### Chat store (`chatStore.ts`) -/

/-- The state slice of the Zustand chat store. -/
structure ChatState where
  messages : List Message
  conversationId : Option String
  isTyping : Bool
  inputText : String
  pendingAttachments : List Attachment
  error : Option String
  deriving Repr, DecidableEq

/-- The initial chat store state. -/
def initialChatState : ChatState :=
  { messages := [], conversationId := none, isTyping := false, inputText := "",
    pendingAttachments := [], error := none }

/-- The user `Message` built at the top of `sendMessage` (`mid` and `ts`
stand for `generateMessageId()` and `new Date().toISOString()`). -/
def mkUserMessage (content : String) (attachments : List Attachment)
    (mid ts : String) : Message :=
  { id := mid, role := .user, content := content, contentType := .text,
    attachments := if attachments.length > 0 then some attachments else none,
    timestamp := ts, isLoading := none }

/-- The assistant `Message` built from the AI response inside
`sendMessage`. -/
def mkAiMessage (resp : AIAgentResponse) (mid ts : String) : Message :=
  { id := mid, role := .assistant, content := resp.content,
    contentType := resp.type, attachments := resp.attachments,
    timestamp := ts, isLoading := none }

/-- The first `set` of `sendMessage`: append the user message, clear the
input and pending attachments, raise the typing flag, clear the error. -/
def sendMessagePhase1 (content : String) (attachments : List Attachment)
    (umid uts : String) (s : ChatState) : ChatState :=
  { s with messages := s.messages ++ [mkUserMessage content attachments umid uts],
           inputText := "", pendingAttachments := [], isTyping := true,
           error := none }

/-- The success continuation of `sendMessage` after `sendToAIAgent`
resolves: append the assistant message, clear the typing flag, keep the
conversation id captured at entry or generate a fresh one, and surface
`response.error` when present. -/
def sendMessagePhase2Ok (origConversationId : Option String)
    (resp : AIAgentResponse) (amid ats newConvId : String)
    (s : ChatState) : ChatState :=
  let s2 := { s with messages := s.messages ++ [mkAiMessage resp amid ats],
                     isTyping := false,
                     conversationId := some (origConversationId.getD newConvId) }
  match resp.error with
  | some e => { s2 with error := some e }
  | none => s2

/-- The `catch` branch of `sendMessage`. -/
def sendMessagePhase2Err (s : ChatState) : ChatState :=
  { s with isTyping := false,
           error := some "Failed to send message. Please try again." }

/-- `sendMessage` from the chat store, end to end. `aiResult` is the
outcome of the awaited `sendToAIAgent` call: `some resp` when it resolves,
`none` when it throws. -/
def sendMessage (content : String) (attachments : List Attachment)
    (umid uts : String) (aiResult : Option AIAgentResponse)
    (amid ats newConvId : String) (s : ChatState) : ChatState :=
  let s1 := sendMessagePhase1 content attachments umid uts s
  match aiResult with
  | some resp => sendMessagePhase2Ok s.conversationId resp amid ats newConvId s1
  | none => sendMessagePhase2Err s1

/-- `addMessage` from the chat store. -/
def addMessage (message : Message) (s : ChatState) : ChatState :=
  { s with messages := s.messages ++ [message] }

/-- `setInputText` from the chat store. -/
def setInputText (text : String) (s : ChatState) : ChatState :=
  { s with inputText := text }

/-- `addAttachment` from the chat store. -/
def addAttachment (attachment : Attachment) (s : ChatState) : ChatState :=
  { s with pendingAttachments := s.pendingAttachments ++ [attachment] }

/-- `removeAttachment` from the chat store. -/
def removeAttachment (id : String) (s : ChatState) : ChatState :=
  { s with pendingAttachments := s.pendingAttachments.filter (fun a => a.id != id) }

/-- `clearAttachments` from the chat store. -/
def clearAttachments (s : ChatState) : ChatState :=
  { s with pendingAttachments := [] }

/-- `clearMessages` from the chat store. -/
def clearMessages (s : ChatState) : ChatState :=
  { s with messages := [], conversationId := none }

/-- `setError` from the chat store. -/
def setError (error : Option String) (s : ChatState) : ChatState :=
  { s with error := error }

/-- `newConversation` from the chat store. -/
def newConversation (newConvId : String) (s : ChatState) : ChatState :=
  { s with messages := [], conversationId := some newConvId, inputText := "",
           pendingAttachments := [], error := none }

/-- `handleFileUpload` from the chat store: `uploadResult` is the outcome
of the awaited `uploadFile` call (`some url` on resolution, `none` on
throw). Returns the new state and the attachment handed back. -/
def handleFileUpload (file : BrowserFile) (uploadResult : Option String)
    (attId : String) (s : ChatState) : ChatState × Option Attachment :=
  match uploadResult with
  | some url =>
      let attachment : Attachment :=
        { id := attId, name := file.name, type := file.type, size := file.size,
          url := url,
          preview := if strStartsWith file.type "image/" then some url else none }
      (addAttachment attachment s, some attachment)
  | none => ({ s with error := some "Failed to upload file. Please try again." }, none)

/-- The hook-level `sendMessage` wrapper from `useChat.ts`: a no-op when
the trimmed content is empty and no attachment is pending, otherwise the
store `sendMessage` applied to the pending attachments. -/
def hookSendMessage (content : String) (umid uts : String)
    (aiResult : Option AIAgentResponse) (amid ats newConvId : String)
    (s : ChatState) : ChatState :=
  if strTrim content == "" && s.pendingAttachments.length == 0 then s
  else sendMessage content s.pendingAttachments umid uts aiResult amid ats newConvId s

/-! ### Voice recorder (`useVoiceRecorder.ts`)

The hook is modelled as a state record acted on by the events of the
source. The browser-side `MediaRecorder` object is summarised by whether
the ref is attached, the object's `state` (`recording`/`inactive`), and
whether a final `dataavailable` flush task is still queued: calling
`stop()` on a recording recorder synchronously moves its state to
`inactive` and queues one last `dataavailable` event (the residual flush)
followed by the `stop` event, so the flush is delivered after the call
that stopped the recorder returns. The captured stream is summarised by
whether the ref is attached and the stopped flag of each of its tracks. -/

/-- `MediaRecorder.state`, restricted to the two values this hook can
observe. -/
inductive RecorderPhase where
  | recording
  | inactive
  deriving Repr, DecidableEq

/-- State of `useVoiceRecorder`: the three React state cells plus the
`mediaRecorderRef`, `chunksRef` (chunk sizes), `timerRef` and `streamRef`
refs; `flushPending` records that `stop()` has queued the final
`dataavailable` flush and it has not been delivered yet; `trackStopped`
carries the stopped flag of each track of the captured stream. -/
structure VoiceRecorderState where
  isRecording : Bool
  recordingDuration : Nat
  recordingError : Option String
  recorderAttached : Bool
  recorderPhase : RecorderPhase
  flushPending : Bool
  chunks : List Nat
  timerActive : Bool
  streamAttached : Bool
  trackStopped : List Bool
  deriving Repr, DecidableEq

/-- The initial state of the hook. -/
def initialRecorderState : VoiceRecorderState :=
  { isRecording := false, recordingDuration := 0, recordingError := none,
    recorderAttached := false, recorderPhase := .inactive,
    flushPending := false, chunks := [], timerActive := false,
    streamAttached := false, trackStopped := [] }

/-- `startRecording`, success branch: clear the error and chunks, attach
the granted stream (with `numTracks` live tracks) and a fresh recording
`MediaRecorder`, raise the recording flag, zero the duration, start the
timer. -/
def startRecordingOk (numTracks : Nat) (s : VoiceRecorderState) : VoiceRecorderState :=
  { s with recordingError := none, chunks := [],
           streamAttached := true, trackStopped := List.replicate numTracks false,
           recorderAttached := true, recorderPhase := .recording,
           flushPending := false,
           isRecording := true, recordingDuration := 0, timerActive := true }

/-- The `ondataavailable` handler exactly as written in the source: push
the blob onto `chunksRef` when its size is positive (the closure keeps the
ref object alive, so it appends whether or not `mediaRecorderRef` still
points at the recorder). -/
def dataAvailable (size : Nat) (s : VoiceRecorderState) : VoiceRecorderState :=
  if size > 0 then { s with chunks := s.chunks ++ [size] } else s

/-- Browser delivery of a periodic timeslice `dataavailable` event (the
`start(100)` interval): only fired while the recorder is recording. -/
def deliverTimesliceChunk (size : Nat) (s : VoiceRecorderState) : VoiceRecorderState :=
  if s.recorderPhase == .recording then dataAvailable size s else s

/-- Browser delivery of the single final flush `dataavailable` queued by
`stop()`: fires once, when a flush is pending, and runs the handler. -/
def deliverFinalFlush (size : Nat) (s : VoiceRecorderState) : VoiceRecorderState :=
  if s.flushPending then { dataAvailable size s with flushPending := false }
  else s

/-- One firing of the one-second interval timer. -/
def timerTick (s : VoiceRecorderState) : VoiceRecorderState :=
  if s.timerActive then { s with recordingDuration := s.recordingDuration + 1 }
  else s

/-- `stopRecording`: resolves `null` when either ref is unattached.
Otherwise it clears the timer, installs `onstop` and calls
`recorder.stop()`, which queues the final flush (`flushSize`); the flush
lands in `chunksRef` before the `stop` event runs `onstop`, which then
assembles the blob from the accumulated chunks, stops every track, clears
both refs, lowers the recording flag and zeroes the duration. The second
component is the assembled blob (as its chunk-size list). -/
def stopRecording (flushSize : Nat) (s : VoiceRecorderState) :
    VoiceRecorderState × Option (List Nat) :=
  if s.recorderAttached && s.streamAttached then
    let s1 := { s with timerActive := false, recorderPhase := .inactive,
                       flushPending := true }
    let s2 := deliverFinalFlush flushSize s1
    ({ s2 with trackStopped := s2.trackStopped.map (fun _ => true),
               streamAttached := false, recorderAttached := false,
               isRecording := false, recordingDuration := 0 },
      some s2.chunks)
  else (s, none)

/-- `cancelRecording`: clear the timer; when the recorder ref is attached
and its state is not `inactive`, call `stop()` (state becomes `inactive`
and the final flush is queued); stop every track and drop the stream when
attached; null the recorder ref; discard the chunks; lower the recording
flag; zero the duration. The queued flush is NOT delivered here: it fires
after this call returns. -/
def cancelRecording (s : VoiceRecorderState) : VoiceRecorderState :=
  let s1 := { s with timerActive := false }
  let s2 := if s1.recorderAttached && s1.recorderPhase != .inactive then
              { s1 with recorderPhase := .inactive, flushPending := true }
            else s1
  let s3 := if s2.streamAttached then
              { s2 with trackStopped := s2.trackStopped.map (fun _ => true),
                        streamAttached := false }
            else s2
  { s3 with recorderAttached := false, chunks := [], isRecording := false,
            recordingDuration := 0 }

/-- A recording is in progress: the state reached by a successful
`startRecording` (possibly followed by chunk and timer events). -/
def recordingInProgress (s : VoiceRecorderState) : Prop :=
  s.isRecording = true ∧ s.recorderAttached = true
  ∧ s.recorderPhase = .recording ∧ s.flushPending = false
  ∧ s.streamAttached = true

/-- A concrete in-progress recording: one-track stream, one timer tick,
one delivered 3-byte timeslice chunk. -/
def sampleRecordingState : VoiceRecorderState :=
  deliverTimesliceChunk 3 (timerTick (startRecordingOk 1 initialRecorderState))

end AiChatAgent

namespace AiChatAgent

/-- C1: `registerUser` fails with the duplicate-email error iff some stored
user already has the same email (leaving the stored list unchanged);
otherwise it appends exactly one record carrying the submitted name, email,
mobile and plain-text password, and returns success with that user minus
the password field. -/
theorem C1_registerUser_spec (data : RegisterFormData) (uid createdAt : String)
    (users : List StoredUser) :
    ((registerUser data uid createdAt users).1.success = false ↔
      users.any (fun u => u.email == data.email) = true)
    ∧ ((registerUser data uid createdAt users).1.success = false →
        (registerUser data uid createdAt users).1.error = some "Email already registered"
        ∧ (registerUser data uid createdAt users).2 = users)
    ∧ ((registerUser data uid createdAt users).1.success = true →
        ∃ nu : StoredUser,
          nu.name = data.name ∧ nu.email = data.email ∧ nu.mobile = data.mobile
          ∧ nu.password = data.password
          ∧ (registerUser data uid createdAt users).2 = users ++ [nu]
          ∧ (registerUser data uid createdAt users).1.user = some (stripPassword nu)
          ∧ (registerUser data uid createdAt users).1.error = none) := by
  unfold registerUser
  by_cases h : users.any (fun u => u.email == data.email) = true
  · simp [h]
  · refine ⟨?_, ?_, ?_⟩
    · simp [h]
    · intro hfalse
      simp [h] at hfalse
    · intro _
      refine ⟨{ id := uid, name := data.name, email := data.email, mobile := data.mobile,
                password := data.password, createdAt := createdAt }, ?_⟩
      simp [h]

/-- Witness for C1 at concrete inputs: the duplicate case fails and the
fresh case appends one record. -/
theorem C1_registerUser_spec_witness :
    ((registerUser ⟨"A", "a@x.com", "1234567890", "pw1234", "pw1234"⟩ "u1" "t1" []).1.success = true
      → ∃ nu : StoredUser,
          nu.name = "A" ∧ nu.email = "a@x.com" ∧ nu.mobile = "1234567890"
          ∧ nu.password = "pw1234"
          ∧ (registerUser ⟨"A", "a@x.com", "1234567890", "pw1234", "pw1234"⟩ "u1" "t1" []).2
              = [] ++ [nu]
          ∧ (registerUser ⟨"A", "a@x.com", "1234567890", "pw1234", "pw1234"⟩ "u1" "t1" []).1.user
              = some (stripPassword nu)
          ∧ (registerUser ⟨"A", "a@x.com", "1234567890", "pw1234", "pw1234"⟩ "u1" "t1" []).1.error
              = none) :=
  (C1_registerUser_spec ⟨"A", "a@x.com", "1234567890", "pw1234", "pw1234"⟩ "u1" "t1" []).2.2

/-- C2: `loginUser` fails with the invalid-credentials error iff no stored
record matches both the submitted email and password, leaving the session
unchanged; on a match it writes the matched user without the password field
as the session and returns that user. -/
theorem C2_loginUser_spec (data : LoginFormData) (users : List StoredUser)
    (session : Option User) :
    ((loginUser data users session).1.success = false ↔
      ∀ u ∈ users, ¬(u.email = data.email ∧ u.password = data.password))
    ∧ ((loginUser data users session).1.success = false →
        (loginUser data users session).1.error = some "Invalid email or password"
        ∧ (loginUser data users session).2 = session)
    ∧ ((loginUser data users session).1.success = true →
        ∃ u ∈ users, u.email = data.email ∧ u.password = data.password
          ∧ (loginUser data users session).1.user = some (stripPassword u)
          ∧ (loginUser data users session).2 = some (stripPassword u)
          ∧ (loginUser data users session).1.error = none) := by
  unfold loginUser
  cases hfind : users.find? (fun u => u.email == data.email && u.password == data.password) with
  | none =>
      have hall := List.find?_eq_none.mp hfind
      refine ⟨?_, ?_, ?_⟩
      · simp only [true_iff]
        intro u hu ⟨he, hp⟩
        have := hall u hu
        simp [he, hp] at this
      · intro _; exact ⟨rfl, rfl⟩
      · intro hcontra; simp at hcontra
  | some u =>
      have hmem := List.mem_of_find?_eq_some hfind
      have hprop := List.find?_some hfind
      simp only [Bool.and_eq_true, beq_iff_eq] at hprop
      refine ⟨?_, ?_, ?_⟩
      · constructor
        · intro hcontra; simp at hcontra
        · intro hall
          exact absurd ⟨hprop.1, hprop.2⟩ (hall u hmem)
      · intro hcontra; simp at hcontra
      · intro _
        exact ⟨u, hmem, hprop.1, hprop.2, rfl, rfl, rfl⟩

/-- Witness for C2 at concrete inputs: a matching record logs in and a
mismatched password fails. -/
theorem C2_loginUser_spec_witness :
    (loginUser ⟨"a@x.com", "pw1234"⟩
        [⟨"u1", "A", "a@x.com", "1234567890", "pw1234", "t1"⟩] none).1.success = false →
      (loginUser ⟨"a@x.com", "pw1234"⟩
        [⟨"u1", "A", "a@x.com", "1234567890", "pw1234", "t1"⟩] none).1.error
        = some "Invalid email or password"
      ∧ (loginUser ⟨"a@x.com", "pw1234"⟩
          [⟨"u1", "A", "a@x.com", "1234567890", "pw1234", "t1"⟩] none).2 = none :=
  (C2_loginUser_spec ⟨"a@x.com", "pw1234"⟩
    [⟨"u1", "A", "a@x.com", "1234567890", "pw1234", "t1"⟩] none).2.1

end AiChatAgent


namespace AiChatAgent

/-- Evaluation of `validateFile` when the MIME type is outside the
allow-list. -/
theorem validateFile_type_error (file : BrowserFile)
    (ht : file.type ∉ allAllowedTypes) :
    validateFile file = { valid := false, error := some "File type not supported" } := by
  simp [validateFile, ht]

/-- Evaluation of `validateFile` on an allowed type above the size limit. -/
theorem validateFile_size_error (file : BrowserFile)
    (ht : file.type ∈ allAllowedTypes) (hs : 10485760 < file.size) :
    validateFile file = { valid := false, error := some "File size exceeds 10MB limit" } := by
  simp only [validateFile, MAX_FILE_SIZE]
  rw [if_neg, if_pos]
  · omega
  · simp [ht]

/-- Evaluation of `validateFile` on an allowed type within the size limit. -/
theorem validateFile_ok (file : BrowserFile)
    (ht : file.type ∈ allAllowedTypes) (hs : file.size ≤ 10485760) :
    validateFile file = { valid := true, error := none } := by
  simp only [validateFile, MAX_FILE_SIZE]
  rw [if_neg, if_neg]
  · omega
  · simp [ht]

/-- C5 counterexample: the claim says every file larger than 10 MB is
rejected with the size-limit error string, but a 10485761-byte file of
unsupported MIME type is rejected with the type error string instead. -/
theorem C5_counterexample :
    (⟨"big.zip", "application/zip", 10485761⟩ : BrowserFile).size > 10485760
    ∧ (validateFile ⟨"big.zip", "application/zip", 10485761⟩).valid = false
    ∧ (validateFile ⟨"big.zip", "application/zip", 10485761⟩).error
        ≠ some "File size exceeds 10MB limit" := by
  have hv := validateFile_type_error ⟨"big.zip", "application/zip", 10485761⟩ (by decide)
  rw [hv]
  refine ⟨by decide, rfl, by decide⟩

/-- C5 (amended): `validateFile` accepts a file exactly when its MIME type
is in the fixed allow-list (images, documents, audio) and its size is at
most 10485760 bytes; a file of allowed type larger than 10 MB is rejected
with the size-limit error string, a file of unsupported MIME type is
rejected with the type error string, and on any rejection `handleDrop`
forwards no file to the upload callback (so the pending-attachment list is
unchanged) and surfaces the validation error. -/
theorem C5_validateFile_spec (file : BrowserFile) (prevError : Option String) :
    ((validateFile file).valid = true ↔
      file.type ∈ allAllowedTypes ∧ file.size ≤ 10485760)
    ∧ (file.type ∈ allAllowedTypes → 10485760 < file.size →
        validateFile file = { valid := false, error := some "File size exceeds 10MB limit" })
    ∧ (file.type ∉ allAllowedTypes →
        validateFile file = { valid := false, error := some "File type not supported" })
    ∧ ((validateFile file).valid = false →
        (handleDrop [file] prevError).1 = none
        ∧ (handleDrop [file] prevError).2 = (validateFile file).error) := by
  by_cases ht : file.type ∈ allAllowedTypes
  · by_cases hs : 10485760 < file.size
    · have hv := validateFile_size_error file ht hs
      refine ⟨?_, fun _ _ => hv, fun hcontra => absurd ht hcontra, ?_⟩
      · rw [hv]; simp; omega
      · intro _; rw [hv]; simp [handleDrop, hv]
    · have hv := validateFile_ok file ht (by omega)
      refine ⟨?_, fun _ hbig => absurd hbig hs, fun hcontra => absurd ht hcontra, ?_⟩
      · rw [hv]; simp [ht]; omega
      · intro hbad; rw [hv] at hbad; simp at hbad
  · have hv := validateFile_type_error file ht
    refine ⟨?_, fun hcontra => absurd hcontra ht, fun _ => hv, ?_⟩
    · rw [hv]; simp [ht]
    · intro _; rw [hv]; simp [handleDrop, hv]

/-- Witness for C5 (amended): an 11 MB PNG is rejected with the size-limit
error and a small zip with the type error. -/
theorem C5_validateFile_spec_witness :
    ((⟨"a.png", "image/png", 11534336⟩ : BrowserFile).type ∈ allAllowedTypes →
      10485760 < (⟨"a.png", "image/png", 11534336⟩ : BrowserFile).size →
      validateFile ⟨"a.png", "image/png", 11534336⟩
        = { valid := false, error := some "File size exceeds 10MB limit" })
    ∧ ((⟨"a.zip", "application/zip", 5⟩ : BrowserFile).type ∉ allAllowedTypes →
        validateFile ⟨"a.zip", "application/zip", 5⟩
          = { valid := false, error := some "File type not supported" }) :=
  ⟨(C5_validateFile_spec ⟨"a.png", "image/png", 11534336⟩ none).2.1,
   (C5_validateFile_spec ⟨"a.zip", "application/zip", 5⟩ none).2.2.1⟩

/-- C9: the MIME-type check precedes the size check: a file that is both
of unsupported type and above 10 MB is rejected with the type error
string, never the size-limit error string. -/
theorem C9_type_checked_before_size (file : BrowserFile)
    (ht : file.type ∉ allAllowedTypes) (_hs : 10485760 < file.size) :
    (validateFile file).error = some "File type not supported"
    ∧ (validateFile file).error ≠ some "File size exceeds 10MB limit" := by
  rw [validateFile_type_error file ht]
  exact ⟨rfl, by simp⟩

/-- Witness for C9 at a concrete oversized, unsupported-type file. -/
theorem C9_type_checked_before_size_witness :
    (validateFile ⟨"v.avi", "video/avi", 20000000⟩).error = some "File type not supported"
    ∧ (validateFile ⟨"v.avi", "video/avi", 20000000⟩).error
        ≠ some "File size exceeds 10MB limit" :=
  C9_type_checked_before_size ⟨"v.avi", "video/avi", 20000000⟩ (by decide) (by decide)

end AiChatAgent

namespace AiChatAgent

/-- C3: on a successful send, `sendMessage` first appends exactly one user
message and raises the typing flag; after the canned-response call it
appends exactly one assistant message and lowers the typing flag; the
prior message list (and the user message) is an unmodified prefix
throughout, and the typing flag is true in the intermediate state between
the two appends and false afterwards. -/
theorem C3_sendMessage_success_spec (s : ChatState) (content : String)
    (attachments : List Attachment) (umid uts amid ats newConvId : String)
    (resp : AIAgentResponse) :
    (sendMessagePhase1 content attachments umid uts s).messages
        = s.messages ++ [mkUserMessage content attachments umid uts]
    ∧ (mkUserMessage content attachments umid uts).role = .user
    ∧ (sendMessagePhase1 content attachments umid uts s).isTyping = true
    ∧ (sendMessage content attachments umid uts (some resp) amid ats newConvId s).messages
        = s.messages ++ [mkUserMessage content attachments umid uts,
                         mkAiMessage resp amid ats]
    ∧ (mkAiMessage resp amid ats).role = .assistant
    ∧ (sendMessage content attachments umid uts (some resp) amid ats newConvId s).isTyping
        = false
    ∧ List.IsPrefix (sendMessagePhase1 content attachments umid uts s).messages
        (sendMessage content attachments umid uts (some resp) amid ats newConvId s).messages := by
  unfold sendMessage sendMessagePhase1 sendMessagePhase2Ok mkUserMessage mkAiMessage
  cases hresp : resp.error <;> simp [hresp]

/-- C4: when the awaited AI call throws, `sendMessage` ends with the
typing flag lowered and the generic failure string in the error field; the
user message appended at the start is still the (only) new element of the
message list — no rollback — and, that message having role `user`, no
assistant message was appended. -/
theorem C4_sendMessage_failure_spec (s : ChatState) (content : String)
    (attachments : List Attachment) (umid uts amid ats newConvId : String) :
    (sendMessage content attachments umid uts none amid ats newConvId s).isTyping = false
    ∧ (sendMessage content attachments umid uts none amid ats newConvId s).error
        = some "Failed to send message. Please try again."
    ∧ (sendMessage content attachments umid uts none amid ats newConvId s).messages
        = s.messages ++ [mkUserMessage content attachments umid uts]
    ∧ (mkUserMessage content attachments umid uts).role = .user := by
  unfold sendMessage sendMessagePhase1 sendMessagePhase2Err mkUserMessage
  simp

/-- C6: the canned-response category is `greeting` when the lowercased
message starts with the greeting pattern; otherwise `code` when it
contains a code keyword; otherwise `image`/`file` according to the first
attachment when one is present; otherwise `default`. The returned content
is always drawn from the selected category's fixed pool, whose entries are
pairwise distinct (so a uniformly random in-range index picks each with
equal probability). -/
theorem C6_canned_response_spec (payload : AIAgentPayload) (randIndex : Nat)
    (hr : randIndex <
      ((mockResponsesLookup (getResponseCategory payload)).getD mockResponses_default).length) :
    (isGreetingStart (strToLower payload.message) = true →
        getResponseCategory payload = "greeting")
    ∧ (isGreetingStart (strToLower payload.message) = false →
        isCodeQuery (strToLower payload.message) = true →
        getResponseCategory payload = "code")
    ∧ (∀ a rest, isGreetingStart (strToLower payload.message) = false →
        isCodeQuery (strToLower payload.message) = false →
        payload.attachments = some (a :: rest) →
        getResponseCategory payload
          = (if strStartsWith a.type "image/" then "image" else "file"))
    ∧ (isGreetingStart (strToLower payload.message) = false →
        isCodeQuery (strToLower payload.message) = false →
        (payload.attachments = none ∨ payload.attachments = some []) →
        getResponseCategory payload = "default")
    ∧ (sendToAIAgent payload randIndex).content
        ∈ (mockResponsesLookup (getResponseCategory payload)).getD mockResponses_default
    ∧ mockResponses_greeting.Nodup ∧ mockResponses_image.Nodup
    ∧ mockResponses_file.Nodup ∧ mockResponses_code.Nodup
    ∧ mockResponses_default.Nodup := by
  refine ⟨?_, ?_, ?_, ?_, ?_, by decide, by decide, by decide, by decide, by decide⟩
  · intro hg; simp [getResponseCategory, hg]
  · intro hg hc; simp [getResponseCategory, hg, hc]
  · intro a rest hg hc hatt; simp [getResponseCategory, hg, hc, hatt]
  · intro hg hc hatt
    rcases hatt with h | h <;> simp [getResponseCategory, hg, hc, h]
  · unfold sendToAIAgent getRandomResponse
    simp only
    rw [List.getD_eq_getElem?_getD, List.getElem?_eq_getElem hr]
    exact List.getElem_mem hr

/-- Witness for C6: the message "hello" with index 0 yields a greeting-pool
response. -/
theorem C6_canned_response_spec_witness :
    (sendToAIAgent ⟨"hello", none, none, none⟩ 0).content
      ∈ (mockResponsesLookup
          (getResponseCategory ⟨"hello", none, none, none⟩)).getD mockResponses_default :=
  (C6_canned_response_spec ⟨"hello", none, none, none⟩ 0 (by decide)).2.2.2.2.1

/-- C7: the message list is append-only: every chat-store operation other
than `clearMessages` and `newConversation` (which replace it wholesale
with the empty list) leaves the prior message list as a prefix of the
resulting one — the appending operations extend it and every other
operation leaves it exactly unchanged. -/
theorem C7_append_only_spec (s : ChatState) (m : Message) (t : String)
    (a : Attachment) (attachmentId : String) (e : Option String)
    (content : String) (atts : List Attachment)
    (umid uts amid ats newConvId : String) (aiResult : Option AIAgentResponse)
    (f : BrowserFile) (uploadResult : Option String) (attId : String) :
    List.IsPrefix s.messages
        (sendMessage content atts umid uts aiResult amid ats newConvId s).messages
    ∧ List.IsPrefix s.messages (sendMessagePhase1 content atts umid uts s).messages
    ∧ List.IsPrefix s.messages (addMessage m s).messages
    ∧ List.IsPrefix s.messages
        (hookSendMessage content umid uts aiResult amid ats newConvId s).messages
    ∧ (setInputText t s).messages = s.messages
    ∧ (addAttachment a s).messages = s.messages
    ∧ (removeAttachment attachmentId s).messages = s.messages
    ∧ (clearAttachments s).messages = s.messages
    ∧ (setError e s).messages = s.messages
    ∧ (handleFileUpload f uploadResult attId s).1.messages = s.messages
    ∧ (clearMessages s).messages = []
    ∧ (newConversation newConvId s).messages = [] := by
  have hsend : ∀ (res : Option AIAgentResponse) (atl : List Attachment),
      List.IsPrefix s.messages
        (sendMessage content atl umid uts res amid ats newConvId s).messages := by
    intro res atl
    unfold sendMessage sendMessagePhase1 sendMessagePhase2Ok sendMessagePhase2Err
    cases res with
    | none => simpa using List.prefix_append s.messages _
    | some resp =>
        cases hresp : resp.error <;>
          simpa [hresp, List.append_assoc] using List.prefix_append s.messages _
  refine ⟨hsend aiResult atts, ?_, ?_, ?_, rfl, rfl, rfl, rfl, rfl, ?_, rfl, rfl⟩
  · simpa [sendMessagePhase1] using List.prefix_append s.messages _
  · simpa [addMessage] using List.prefix_append s.messages _
  · unfold hookSendMessage
    split
    · exact List.prefix_refl _
    · exact hsend aiResult s.pendingAttachments
  · unfold handleFileUpload
    cases uploadResult <;> simp [addAttachment]

/-- C8 counterexample: the claim says the chunk list stays empty and no
further chunk is appended after `cancelRecording`, but `stop()` queues one
final `dataavailable` flush that the still-attached handler appends to
`chunksRef` after the cancel: from an in-progress one-track recording,
the list is empty right after the cancel and holds the 2-byte flush chunk
once the queued event fires. -/
theorem C8_counterexample :
    (startRecordingOk 1 initialRecorderState).isRecording = true
    ∧ (cancelRecording (startRecordingOk 1 initialRecorderState)).chunks = []
    ∧ (cancelRecording (startRecordingOk 1 initialRecorderState)).flushPending = true
    ∧ (deliverFinalFlush 2 (cancelRecording (startRecordingOk 1 initialRecorderState))).chunks
        = [2]
    ∧ (deliverFinalFlush 2 (cancelRecording (startRecordingOk 1 initialRecorderState))).chunks
        ≠ [] := by
  decide

/-- C8 (amended): cancelling an in-progress recording empties the chunk
list, makes any later `stopRecording` resolve `null` (so no attachment can
be built from the recording), detaches the recorder and the stream with
every track stopped, lowers the recording flag, zeroes the duration and
stops the timer; no timeslice chunk can be appended after the cancel, and
the only chunk that can still arrive is the single final flush queued by
stopping the recorder — once it is delivered the list holds at most that
one chunk, and afterwards no event of any kind appends a chunk or yields
a blob. -/
theorem C8_cancelRecording_spec (s : VoiceRecorderState)
    (flushSize tsSize fsz : Nat) (h : recordingInProgress s) :
    (cancelRecording s).chunks = []
    ∧ (stopRecording fsz (cancelRecording s)).2 = none
    ∧ (cancelRecording s).recorderAttached = false
    ∧ (cancelRecording s).streamAttached = false
    ∧ (∀ b ∈ (cancelRecording s).trackStopped, b = true)
    ∧ (cancelRecording s).isRecording = false
    ∧ (cancelRecording s).recordingDuration = 0
    ∧ (cancelRecording s).timerActive = false
    ∧ deliverTimesliceChunk tsSize (cancelRecording s) = cancelRecording s
    ∧ (deliverFinalFlush flushSize (cancelRecording s)).chunks
        = (if flushSize > 0 then [flushSize] else [])
    ∧ deliverTimesliceChunk tsSize (deliverFinalFlush flushSize (cancelRecording s))
        = deliverFinalFlush flushSize (cancelRecording s)
    ∧ deliverFinalFlush tsSize (deliverFinalFlush flushSize (cancelRecording s))
        = deliverFinalFlush flushSize (cancelRecording s)
    ∧ (stopRecording fsz (deliverFinalFlush flushSize (cancelRecording s))).2 = none := by
  obtain ⟨h1, h2, h3, h4, h5⟩ := h
  have hc : cancelRecording s =
      { isRecording := false, recordingDuration := 0,
        recordingError := s.recordingError, recorderAttached := false,
        recorderPhase := .inactive, flushPending := true, chunks := [],
        timerActive := false, streamAttached := false,
        trackStopped := List.replicate s.trackStopped.length true } := by
    unfold cancelRecording
    simp [h2, h3, h4, h5]
  rw [hc]
  refine ⟨rfl, by simp [stopRecording], rfl, rfl, by simp, rfl, rfl, rfl,
    by simp [deliverTimesliceChunk], ?_, ?_, ?_, ?_⟩ <;>
    by_cases hf : flushSize > 0 <;>
      simp [deliverFinalFlush, dataAvailable, deliverTimesliceChunk, stopRecording, hf]

/-- Witness for C8 (amended) at the concrete in-progress recording
`sampleRecordingState`, with a 2-byte final flush and further 5- and
4-byte events offered afterwards. -/
theorem C8_cancelRecording_spec_witness :
    (cancelRecording sampleRecordingState).chunks = []
    ∧ (stopRecording 4 (cancelRecording sampleRecordingState)).2 = none
    ∧ (cancelRecording sampleRecordingState).recorderAttached = false
    ∧ (cancelRecording sampleRecordingState).streamAttached = false
    ∧ (∀ b ∈ (cancelRecording sampleRecordingState).trackStopped, b = true)
    ∧ (cancelRecording sampleRecordingState).isRecording = false
    ∧ (cancelRecording sampleRecordingState).recordingDuration = 0
    ∧ (cancelRecording sampleRecordingState).timerActive = false
    ∧ deliverTimesliceChunk 5 (cancelRecording sampleRecordingState)
        = cancelRecording sampleRecordingState
    ∧ (deliverFinalFlush 2 (cancelRecording sampleRecordingState)).chunks
        = (if 2 > 0 then [2] else [])
    ∧ deliverTimesliceChunk 5 (deliverFinalFlush 2 (cancelRecording sampleRecordingState))
        = deliverFinalFlush 2 (cancelRecording sampleRecordingState)
    ∧ deliverFinalFlush 5 (deliverFinalFlush 2 (cancelRecording sampleRecordingState))
        = deliverFinalFlush 2 (cancelRecording sampleRecordingState)
    ∧ (stopRecording 4 (deliverFinalFlush 2 (cancelRecording sampleRecordingState))).2 = none :=
  C8_cancelRecording_spec sampleRecordingState 2 5 4
    ⟨by decide, by decide, by decide, by decide, by decide⟩

/-- C10: the hook-level `sendMessage` is a complete no-op (the whole chat
state is returned unchanged) when the trimmed content is empty and no
attachment is pending. -/
theorem C10_empty_send_noop (content : String) (umid uts amid ats newConvId : String)
    (aiResult : Option AIAgentResponse) (s : ChatState)
    (hc : strTrim content = "") (ha : s.pendingAttachments = []) :
    hookSendMessage content umid uts aiResult amid ats newConvId s = s := by
  unfold hookSendMessage
  rw [if_pos]
  simp [hc, ha]

/-- Witness for C10: sending whitespace-only content from the initial
state changes nothing. -/
theorem C10_empty_send_noop_witness :
    hookSendMessage "   " "m1" "t1" none "m2" "t2" "c1" initialChatState
      = initialChatState :=
  C10_empty_send_noop "   " "m1" "t1" "m2" "t2" "c1" none initialChatState
    (by decide) (by decide)

end AiChatAgent
